import Mathlib

/-
Verification of the `alerting` package (alerting.go): the Event model and its
validation, the Slack and generic-webhook payload renderers, and the dispatch
routines SendSlack / SendWebhook / sendJSON.

Modelling conventions:
* Go strings are modelled as lists of characters (`GoStr`).  The byte-level
  operations of the source (`len`, slicing) coincide with the character-level
  operations used here on the ASCII data these strings carry.
* `time.Time` is modelled by `GoTime`: the wall-clock instant in seconds since
  the zero time (January 1, year 1, 00:00:00 UTC) together with the location's
  presentation offset in minutes.  Sub-second precision is dropped, which is
  invisible to the RFC 3339 layout used by the source (it has no fractional
  seconds).
* The HTTP client is abstracted by a `DoResult` value: the outcome that
  `(*http.Client).Do` would produce for the single POST a call performs.
  `SendOutcome.attempted` records whether control reached that call.
-/

/-- Go strings, modelled as character sequences. -/
abbrev GoStr := List Char

/-- The White_Space code points recognised by Go's `unicode.IsSpace`. -/
def goSpaceChars : List Char :=
  ['\t', '\n', '\x0b', '\x0c', '\r', ' ', '\u0085', ' ', ' ',
   ' ', ' ', ' ', ' ', ' ', ' ', ' ',
   ' ', ' ', ' ', ' ', ' ', ' ', ' ',
   ' ', '　']

/-- Character predicate of Go's `unicode.IsSpace`. -/
def isGoSpace (c : Char) : Bool := goSpaceChars.contains c

/-- Go's `strings.TrimSpace`: drop leading and trailing white space. -/
def trimSpace (s : GoStr) : GoStr :=
  ((s.dropWhile isGoSpace).reverse.dropWhile isGoSpace).reverse

/-- Decimal rendering of a natural number, as Go's `fmt` verb `%d` prints it. -/
def natToStr (n : Nat) : GoStr := Nat.toDigits 10 n

/-- Zero-pad a number to two digits (the `04`-style fields of the time layout). -/
def pad2 (n : Nat) : GoStr := if n < 10 then '0' :: natToStr n else natToStr n

/-- Zero-pad a number to four digits (the year field of the time layout). -/
def pad4 (n : Nat) : GoStr :=
  List.replicate (4 - (natToStr n).length) '0' ++ natToStr n

/-- Render a (possibly negative) year. -/
def yearStr (y : Int) : GoStr := if y < 0 then '-' :: pad4 y.natAbs else pad4 y.toNat

/-- Civil date of a day count (days since January 1, year 1, proleptic
Gregorian); the classic era-based conversion used by calendar libraries. -/
def civilFromDays (day : Int) : Int × Nat × Nat :=
  let z := day + 306
  let era := z.ediv 146097
  let doe := (z.emod 146097).toNat
  let yoe := (doe - doe / 1460 + doe / 36524 - doe / 146096) / 365
  let doy := doe - (365 * yoe + yoe / 4 - yoe / 100)
  let mp := (5 * doy + 2) / 153
  let d := doy - (153 * mp + 2) / 5 + 1
  let m := if mp < 10 then mp + 3 else mp - 9
  (era * 400 + yoe + (if m ≤ 2 then 1 else 0), m, d)

/-- Day count (days since January 1, year 1) of a civil date; inverse of
`civilFromDays` on valid dates. -/
def daysFromCivil (y : Int) (m d : Nat) : Int :=
  let y2 := if m ≤ 2 then y - 1 else y
  let era := y2.ediv 400
  let yoe := (y2 - era * 400).toNat
  let doy := (153 * ((m + 9) % 12) + 2) / 5 + d - 1
  let doe := yoe * 365 + yoe / 4 - yoe / 100 + doy
  era * 146097 + (doe : Int) - 306

/-- Model of Go's `time.Time`: the instant in seconds since the zero time
(January 1, year 1, 00:00:00 UTC) plus the location's offset in minutes. -/
structure GoTime where
  sec : Int
  offsetMin : Int
deriving DecidableEq

/-- Go's `Time.IsZero`: the instant is the zero time. -/
def GoTime.isZero (t : GoTime) : Bool := t.sec == 0

/-- Go's `Time.UTC`: same instant, presented in UTC. -/
def GoTime.utc (t : GoTime) : GoTime := { sec := t.sec, offsetMin := 0 }

/-- Go's `Time.Format(time.RFC3339)`: `2006-01-02T15:04:05Z07:00` without
fractional seconds; `Z` when the presentation offset is zero. -/
def GoTime.formatRFC3339 (t : GoTime) : GoStr :=
  let locSec := t.sec + t.offsetMin * 60
  let day := locSec.ediv 86400
  let sod := (locSec.emod 86400).toNat
  let ymd := civilFromDays day
  yearStr ymd.1 ++ "-".toList ++ pad2 ymd.2.1 ++ "-".toList ++ pad2 ymd.2.2 ++
  "T".toList ++ pad2 (sod / 3600) ++ ":".toList ++ pad2 (sod % 3600 / 60) ++
  ":".toList ++ pad2 (sod % 60) ++
  (if t.offsetMin = 0 then ['Z']
   else (if t.offsetMin < 0 then ['-'] else ['+']) ++
        pad2 (t.offsetMin.natAbs / 60) ++ ":".toList ++ pad2 (t.offsetMin.natAbs % 60))

/-- Constructor mirroring `time.Date` in a fixed-offset location. -/
def GoTime.date (y : Int) (mo d h mi s : Nat) (offMin : Int) : GoTime :=
  { sec := daysFromCivil y mo d * 86400 + h * 3600 + mi * 60 + s - offMin * 60
    offsetMin := offMin }

/-- The Event record of alerting.go: non-secret metadata of one finding. -/
structure Event where
  Repository : GoStr
  Branch : GoStr
  CommitSHA : GoStr
  Rule : GoStr
  FilePath : GoStr
  Author : GoStr
  DetectedAt : GoTime
deriving DecidableEq

/-- `Event.Validate` of alerting.go; `none` is Go's nil error, `some msg` the
message of the `errors.New` value returned. -/
def Event.Validate (e : Event) : Option GoStr :=
  if (trimSpace e.Repository).isEmpty then some ( "repository is required".toList)
  else if (trimSpace e.Branch).isEmpty then some ( "branch is required".toList)
  else if (trimSpace e.CommitSHA).isEmpty then some ( "commit_sha is required".toList)
  else if (trimSpace e.Rule).isEmpty then some ( "rule is required".toList)
  else if (trimSpace e.FilePath).isEmpty then some ( "file_path is required".toList)
  else if (trimSpace e.Author).isEmpty then some ( "author is required".toList)
  else if GoTime.isZero e.DetectedAt then some ( "detected_at is required".toList)
  else none

/-- The validation checks of `Event.Validate` in source order, each paired with
its error message; the first component is `true` when the check is violated. -/
def validateChecks (e : Event) : List (Bool × GoStr) :=
  [((trimSpace e.Repository).isEmpty, "repository is required".toList),
   ((trimSpace e.Branch).isEmpty, "branch is required".toList),
   ((trimSpace e.CommitSHA).isEmpty, "commit_sha is required".toList),
   ((trimSpace e.Rule).isEmpty, "rule is required".toList),
   ((trimSpace e.FilePath).isEmpty, "file_path is required".toList),
   ((trimSpace e.Author).isEmpty, "author is required".toList),
   (GoTime.isZero e.DetectedAt, "detected_at is required".toList)]

/-- Slack mrkdwn text object (`SlackText` of alerting.go; JSON `type`/`text`). -/
structure SlackText where
  type : GoStr
  text : GoStr
deriving DecidableEq

/-- Slack block (`SlackBlock` of alerting.go). -/
structure SlackBlock where
  type : GoStr
  text : SlackText
deriving DecidableEq

/-- Slack payload (`SlackPayload` of alerting.go): top-level text plus blocks. -/
structure SlackPayload where
  Text : GoStr
  Blocks : List SlackBlock
deriving DecidableEq

/-- The summary line of `BuildSlackPayload`: the `fmt.Sprintf` with the alert
marker, repository, branch and the (possibly shortened) commit identifier. -/
def slackSummaryText (repo branch sha : GoStr) : GoStr :=
  ":rotating_light: Secret detected in ".toList ++ repo ++
  " on ".toList ++ branch ++ " (".toList ++ sha ++ ")".toList

/-- The detail text of `BuildSlackPayload`: the `fmt.Sprintf` joining the seven
fields.  The separator between lines is, verbatim from the source, the
two-character sequence `¥n` (U+00A5 YEN SIGN followed by `n`), not a newline. -/
def slackDetailText (event : Event) : GoStr :=
  "*Repo:* `".toList ++ event.Repository ++
  "`¥n*Branch:* `".toList ++ event.Branch ++
  "`¥n*Commit:* `".toList ++ event.CommitSHA ++
  "`¥n*Rule:* `".toList ++ event.Rule ++
  "`¥n*File:* `".toList ++ event.FilePath ++
  "`¥n*Author:* `".toList ++ event.Author ++
  "`¥n*Detected:* `".toList ++
  GoTime.formatRFC3339 (GoTime.utc event.DetectedAt) ++ "`".toList

/-- `BuildSlackPayload` of alerting.go. -/
def BuildSlackPayload (event : Event) : SlackPayload :=
  let shortSHA := event.CommitSHA
  let shortSHA := if 7 < shortSHA.length then shortSHA.take 7 else shortSHA
  let summary := slackSummaryText event.Repository event.Branch shortSHA
  let detail := slackDetailText event
  { Text := summary
    Blocks := [{ type := "section".toList, text := { type := "mrkdwn".toList, text := summary } },
               { type := "section".toList, text := { type := "mrkdwn".toList, text := detail } }] }

/-- Generic webhook payload (`WebhookPayload` of alerting.go). -/
structure WebhookPayload where
  Event : GoStr
  Repository : GoStr
  Branch : GoStr
  CommitSHA : GoStr
  Rule : GoStr
  FilePath : GoStr
  Author : GoStr
  DetectedAt : GoStr
deriving DecidableEq

/-- `BuildWebhookPayload` of alerting.go. -/
def BuildWebhookPayload (event : Event) : WebhookPayload :=
  { Event := "secret.detected".toList
    Repository := event.Repository
    Branch := event.Branch
    CommitSHA := event.CommitSHA
    Rule := event.Rule
    FilePath := event.FilePath
    Author := event.Author
    DetectedAt := GoTime.formatRFC3339 (GoTime.utc event.DetectedAt) }

/-- The event of the package's own tests (`testEvent` in alerting_test.go). -/
def sampleEvent : Event :=
  { Repository := "acme/tripwire".toList
    Branch := "main".toList
    CommitSHA := "abc1234def5678".toList
    Rule := "aws-access-key-id".toList
    FilePath := "config/settings.py".toList
    Author := "dev@example.com".toList
    DetectedAt := GoTime.date 2026 2 26 12 0 0 0 }

/-- A variant of the sample event whose commit identifier has length at most 7. -/
def shortShaEvent : Event := { sampleEvent with CommitSHA := "abc".toList }

/-- A variant of the sample event whose repository is only white space. -/
def blankRepoEvent : Event := { sampleEvent with Repository := "   ".toList }

/-
Model of the slice of `net/url` the dispatcher depends on.
`urlParse true` is `url.ParseRequestURI` (parse with viaRequest = true);
`urlParse false` is the `url.Parse` that `http.NewRequestWithContext`
performs on the same string.  The IPv6 zone slice of a bracketed host is
checked with host rules rather than Go's slightly more permissive zone rules,
and the quoted fragments of Go's error texts are abbreviated; no claim
depends on either corner.
-/

/-- Bool test of a closed character range. -/
def charBetween (lo hi c : Char) : Bool := decide (lo ≤ c ∧ c ≤ hi)

/-- Go's `ishex`. -/
def isHexChar (c : Char) : Bool :=
  c.isDigit || charBetween 'a' 'f' c || charBetween 'A' 'F' c

/-- Go's `unhex` on the first hex digit of an escape. -/
def unhexVal (c : Char) : Nat :=
  if c.isDigit then c.toNat - '0'.toNat
  else if charBetween 'a' 'f' c then c.toNat - 'a'.toNat + 10
  else if charBetween 'A' 'F' c then c.toNat - 'A'.toNat + 10
  else 0

/-- Go's `stringContainsCTLByte` (multi-byte characters contain no CTL bytes,
so the byte scan coincides with this character scan). -/
def containsCTL (s : GoStr) : Bool :=
  s.any fun c => decide (c.toNat < 0x20) || c.toNat == 0x7f

/-- Go's `validOptionalPort`: empty, or a colon followed by digits only. -/
def validOptionalPort : GoStr → Bool
  | [] => true
  | ':' :: digits => digits.all Char.isDigit
  | _ => false

/-- Split at the last occurrence of a character (`strings.LastIndex`):
`some (before, after)` without the separator, `none` when absent. -/
def splitAtLast (ch : Char) : GoStr → Option (GoStr × GoStr)
  | [] => none
  | c :: rest =>
    match splitAtLast ch rest with
    | some (a, b) => some (c :: a, b)
    | none => if c == ch then some ([], rest) else none

/-- Split at the first occurrence of a character (`strings.Cut`), dropping the
separator; when absent the second component is empty. -/
def cutAt (sep : Char) : GoStr → GoStr × GoStr
  | [] => ([], [])
  | c :: rest =>
    if c == sep then ([], rest)
    else
      let p := cutAt sep rest
      (c :: p.1, p.2)

/-- Split at the first occurrence of a character, keeping the separator in the
second component (the authority/path split of `url.parse`). -/
def cutAtKeep (sep : Char) : GoStr → GoStr × GoStr
  | [] => ([], [])
  | c :: rest =>
    if c == sep then ([], c :: rest)
    else
      let p := cutAtKeep sep rest
      (c :: p.1, p.2)

/-- The characters that never need escaping in a host per Go's `shouldEscape`
(`encodeHost` mode): unreserved plus the host sub-delimiters. -/
def hostSafeExtra : List Char :=
  ['-', '_', '.', '~', '!', '$', '&', '\'', '(', ')', '*', '+', ',', ';', '=',
   ':', '[', ']', '<', '>', '"']

/-- Go's `shouldEscape c encodeHost`. -/
def shouldEscapeHost (c : Char) : Bool :=
  !(c.isAlpha || c.isDigit || hostSafeExtra.contains c)

/-- The escape-validation modes of Go's `unescape` used by the dispatcher. -/
inductive EscapeMode where
  | host
  | path
  | userPassword
deriving DecidableEq

/-- The error paths of Go's `unescape(s, mode)`: malformed `%`-escapes in any
mode; in host mode additionally ASCII escapes other than `%25` and raw
characters a host must escape. -/
def unescapeCheck (mode : EscapeMode) : GoStr → Except GoStr Unit
  | [] => .ok ()
  | '%' :: rest =>
    match rest with
    | a :: b :: rest2 =>
      if isHexChar a && isHexChar b then
        if mode == EscapeMode.host && decide (unhexVal a < 8) && !(a == '2' && b == '5') then
          .error ( "invalid URL escape".toList)
        else unescapeCheck mode rest2
      else .error ( "invalid URL escape".toList)
    | _ => .error ( "invalid URL escape".toList)
  | c :: rest =>
    if mode == EscapeMode.host && decide (c.toNat < 0x80) && shouldEscapeHost c then
      .error ( "invalid character in host name".toList)
    else unescapeCheck mode rest

/-- Go's `parseHost`: bracketed-host and port checks, then escape validation. -/
def parseHost (host : GoStr) : Except GoStr Unit :=
  if host.head? == some '[' then
    match splitAtLast ']' host with
    | none => .error ( "missing ']' in host".toList)
    | some (_, colonPort) =>
      if !(validOptionalPort colonPort) then .error ( "invalid port after host".toList)
      else unescapeCheck .host host
  else
    match splitAtLast ':' host with
    | some (_, after) =>
      if !(validOptionalPort (':' :: after)) then .error ( "invalid port after host".toList)
      else unescapeCheck .host host
    | none => unescapeCheck .host host

/-- The characters `validUserinfo` admits beyond alphanumerics. -/
def userinfoExtra : List Char :=
  ['-', '.', '_', ':', '~', '!', '$', '&', '\'', '(', ')', '*', '+', ',', ';',
   '=', '%', '@']

/-- Go's `validUserinfo`. -/
def validUserinfo (s : GoStr) : Bool :=
  s.all fun r => r.isAlpha || r.isDigit || userinfoExtra.contains r

/-- Go's `parseAuthority`: split at the last `@`, check the host, then the
userinfo character set and its escapes (user and password pieces). -/
def parseAuthority (authority : GoStr) : Except GoStr Unit :=
  match splitAtLast '@' authority with
  | none => parseHost authority
  | some (userinfo, hostPart) =>
    match parseHost hostPart with
    | .error e => .error e
    | .ok _ =>
      if !(validUserinfo userinfo) then .error ( "net/url: invalid userinfo".toList)
      else
        let p := cutAt ':' userinfo
        match unescapeCheck .userPassword p.1 with
        | .error e => .error e
        | .ok _ => unescapeCheck .userPassword p.2

/-- Worker of Go's `getScheme`; the accumulator holds the scheme seen so far
(`acc.isEmpty` plays the role of `i == 0`). -/
def getSchemeAux (orig : GoStr) : GoStr → GoStr → Except GoStr (GoStr × GoStr)
  | [], _ => .ok ([], orig)
  | c :: rest, acc =>
    if c.isAlpha then getSchemeAux orig rest (acc ++ [c])
    else if c.isDigit || c == '+' || c == '-' || c == '.' then
      if acc.isEmpty then .ok ([], orig) else getSchemeAux orig rest (acc ++ [c])
    else if c == ':' then
      if acc.isEmpty then .error ( "missing protocol scheme".toList)
      else .ok (acc, rest)
    else .ok ([], orig)

/-- Go's `getScheme`: split a leading `scheme:` off a raw URL. -/
def getScheme (raw : GoStr) : Except GoStr (GoStr × GoStr) := getSchemeAux raw raw []

/-- Does the string start with `//`? -/
def startsWith2Slash : GoStr → Bool
  | '/' :: '/' :: _ => true
  | _ => false

/-- Does the string start with `///`? -/
def startsWith3Slash : GoStr → Bool
  | '/' :: '/' :: '/' :: _ => true
  | _ => false

/-- The authority-and-path tail of Go's `url.parse`: consume `//authority`
when present, then validate the path escapes (`setPath`). -/
def parseAuthorityAndPath (viaRequest : Bool) (scheme rest : GoStr) : Except GoStr Unit :=
  if ((!scheme.isEmpty) || (!viaRequest && !(startsWith3Slash rest))) && startsWith2Slash rest then
    let p := cutAtKeep '/' (rest.drop 2)
    match parseAuthority p.1 with
    | .error e => .error e
    | .ok _ => unescapeCheck .path p.2
  else unescapeCheck .path rest

/-- Go's `url.parse(rawURL, viaRequest)` restricted to its accept/reject
outcome: `urlParse true` is `url.ParseRequestURI`, `urlParse false` is the
`url.Parse` done by `http.NewRequestWithContext`. -/
def urlParse (viaRequest : Bool) (rawURL : GoStr) : Except GoStr Unit :=
  if containsCTL rawURL then .error ( "net/url: invalid control character in URL".toList)
  else if rawURL.isEmpty && viaRequest then .error ( "empty url".toList)
  else if rawURL == ['*'] then .ok ()
  else
    match getScheme rawURL with
    | .error e => .error e
    | .ok (scheme, afterScheme) =>
      let rest := (cutAt '?' afterScheme).1
      if !(rest.head? == some '/') then
        if !scheme.isEmpty then .ok ()
        else if viaRequest then .error ( "invalid URI for request".toList)
        else if ((cutAt '/' rest).1).contains ':' then
          .error ( "first path segment in URL cannot contain colon".toList)
        else parseAuthorityAndPath viaRequest scheme rest
      else parseAuthorityAndPath viaRequest scheme rest

/-- Outcome of the single `(*http.Client).Do` call a dispatch performs: a
transport-level failure or a response with a status code. -/
inductive DoResult where
  | failure (msg : GoStr)
  | response (status : Nat)
deriving DecidableEq

/-- Result of a dispatch call: the returned error message (`none` is Go's nil
error) and whether `(*http.Client).Do` was reached. -/
structure SendOutcome where
  err : Option GoStr
  attempted : Bool
deriving DecidableEq

/-- `(*Sender).sendJSON` of alerting.go.  `json.Marshal` of the two payload
shapes (records of strings) never fails and the request construction repeats
the URL parse (`urlParse false`); the serialized body does not influence the
outcome, so the payload argument is carried only for shape fidelity. -/
def sendJSON {α : Type} (doRes : DoResult) (webhookURL : GoStr) (payload : α) : SendOutcome :=
  if (trimSpace webhookURL).isEmpty then
    { err := some ( "webhook URL is required".toList), attempted := false }
  else
    match urlParse true webhookURL with
    | .error e => { err := some ( "invalid webhook URL: ".toList ++ e), attempted := false }
    | .ok _ =>
      match urlParse false webhookURL with
      | .error e => { err := some ( "build request: ".toList ++ e), attempted := false }
      | .ok _ =>
        match doRes with
        | .failure msg => { err := some ( "send webhook: ".toList ++ msg), attempted := true }
        | .response code =>
          if code < 200 || 300 ≤ code then
            { err := some ( "webhook returned status ".toList ++ natToStr code), attempted := true }
          else { err := none, attempted := true }

/-- `(*Sender).SendSlack` of alerting.go. -/
def SendSlack (doRes : DoResult) (webhookURL : GoStr) (event : Event) : SendOutcome :=
  match Event.Validate event with
  | some msg => { err := some ( "invalid event: ".toList ++ msg), attempted := false }
  | none => sendJSON doRes webhookURL (BuildSlackPayload event)

/-- `(*Sender).SendWebhook` of alerting.go. -/
def SendWebhook (doRes : DoResult) (webhookURL : GoStr) (event : Event) : SendOutcome :=
  match Event.Validate event with
  | some msg => { err := some ( "invalid event: ".toList ++ msg), attempted := false }
  | none => sendJSON doRes webhookURL (BuildWebhookPayload event)

/-- Modelled from the spec: the minimal syntactic requirement every RFC 3986
well-formed absolute URL meets — it begins with a scheme (a letter followed by
letters, digits, `+`, `-` or `.`) terminated by a colon.  Used only to state
claims that speak of "a well-formed absolute URL". -/
def specSchemeTail : GoStr → Bool
  | [] => false
  | c :: r => if c == ':' then true
              else (c.isAlpha || c.isDigit || c == '+' || c == '-' || c == '.') && specSchemeTail r

/-- Modelled from the spec: a string can only be a well-formed absolute URL if
`specHasURLScheme` holds of it. -/
def specHasURLScheme : GoStr → Bool
  | [] => false
  | c :: r => c.isAlpha && specSchemeTail r

/-- A well-formed absolute destination URL used by the dispatch witnesses. -/
def sampleURL : GoStr := "https://hooks.example.com/T000/B000".toList
/-- C1: Validate succeeds exactly when all six string fields are non-empty
after trimming white space and the detection timestamp is not the zero value;
whitespace-only fields count as blank because trimming happens first. -/
theorem validate_ok_iff (e : Event) :
    Event.Validate e = none ↔
      ((trimSpace e.Repository).isEmpty = false ∧
       (trimSpace e.Branch).isEmpty = false ∧
       (trimSpace e.CommitSHA).isEmpty = false ∧
       (trimSpace e.Rule).isEmpty = false ∧
       (trimSpace e.FilePath).isEmpty = false ∧
       (trimSpace e.Author).isEmpty = false ∧
       GoTime.isZero e.DetectedAt = false) := by
  unfold Event.Validate
  split_ifs <;> simp_all

/-- C1 witness: a fully populated event with a set timestamp validates. -/
theorem validate_ok_iff_witness :
    Event.Validate
      { Repository := "acme/tripwire".toList
        Branch := "main".toList
        CommitSHA := "abc1234def5678".toList
        Rule := "aws-access-key-id".toList
        FilePath := "config/settings.py".toList
        Author := "dev@example.com".toList
        DetectedAt := GoTime.date 2026 2 26 12 0 0 0 } = none :=
  (validate_ok_iff _).mpr (by decide)

/-- Helper: a dispatch on a validated event is the shared sendJSON path. -/
theorem sendSlack_valid_eq (d : DoResult) (url : GoStr) (e : Event)
    (hv : Event.Validate e = none) :
    SendSlack d url e = sendJSON d url (BuildSlackPayload e) := by
  unfold SendSlack; rw [hv]

/-- Helper: a webhook dispatch on a validated event is the shared sendJSON path. -/
theorem sendWebhook_valid_eq (d : DoResult) (url : GoStr) (e : Event)
    (hv : Event.Validate e = none) :
    SendWebhook d url e = sendJSON d url (BuildWebhookPayload e) := by
  unfold SendWebhook; rw [hv]

/-- Helper: once the URL passes the blank check and both parses, sendJSON
classifies the transport outcome. -/
theorem sendJSON_reduce {α : Type} (d : DoResult) (url : GoStr) (p : α)
    (hb : (trimSpace url).isEmpty = false)
    (h1 : urlParse true url = .ok ())
    (h2 : urlParse false url = .ok ()) :
    sendJSON d url p =
      match d with
      | .failure msg => { err := some ( "send webhook: ".toList ++ msg), attempted := true }
      | .response code =>
        if code < 200 || 300 ≤ code then
          { err := some ( "webhook returned status ".toList ++ natToStr code), attempted := true }
        else { err := none, attempted := true } := by
  unfold sendJSON
  rw [hb, h1, h2]
  simp

/-- C2: with a validated event and an accepted URL, any response status inside
[200, 299] is reported as success by both SendSlack and SendWebhook, and any
status outside that range yields an error whose message contains the decimal
status code. -/
theorem send_status_classification (e : Event) (url : GoStr) (code : Nat)
    (hv : Event.Validate e = none)
    (hb : (trimSpace url).isEmpty = false)
    (h1 : urlParse true url = .ok ())
    (h2 : urlParse false url = .ok ()) :
    ((200 ≤ code ∧ code < 300) →
      SendSlack (.response code) url e = { err := none, attempted := true } ∧
      SendWebhook (.response code) url e = { err := none, attempted := true }) ∧
    (¬(200 ≤ code ∧ code < 300) →
      ∃ msg, SendSlack (.response code) url e = { err := some msg, attempted := true } ∧
        SendWebhook (.response code) url e = { err := some msg, attempted := true } ∧
        List.IsInfix (natToStr code) msg) := by
  rw [sendSlack_valid_eq _ _ _ hv, sendWebhook_valid_eq _ _ _ hv,
      sendJSON_reduce _ _ _ hb h1 h2, sendJSON_reduce _ _ _ hb h1 h2]
  constructor
  · rintro ⟨hlo, hhi⟩
    have hc : ¬(code < 200 || 300 ≤ code) = true := by
      simp only [Bool.or_eq_true, decide_eq_true_eq]
      omega
    simp [hc]
  · intro h
    have hc : (code < 200 || 300 ≤ code) = true := by
      simp only [Bool.or_eq_true, decide_eq_true_eq]
      omega
    refine ⟨ "webhook returned status ".toList ++ natToStr code, ?_, ?_, ?_⟩
    · simp [hc]
    · simp [hc]
    · exact ⟨ "webhook returned status ".toList, [], by simp⟩

/-- C2 witness: against the sample URL and validated sample event, status 204
is success and status 404 is an error mentioning 404. -/
theorem send_status_classification_witness :
    (SendSlack (.response 204) sampleURL sampleEvent = { err := none, attempted := true } ∧
     SendWebhook (.response 204) sampleURL sampleEvent = { err := none, attempted := true }) ∧
    (∃ msg, SendSlack (.response 404) sampleURL sampleEvent = { err := some msg, attempted := true } ∧
      SendWebhook (.response 404) sampleURL sampleEvent = { err := some msg, attempted := true } ∧
      List.IsInfix (natToStr 404) msg) :=
  ⟨(send_status_classification sampleEvent sampleURL 204
      (by decide) (by decide) rfl rfl).1 (by decide),
   (send_status_classification sampleEvent sampleURL 404
      (by decide) (by decide) rfl rfl).2 (by decide)⟩

/-- C3: the summary line shows exactly the first 7 characters of the commit
identifier when its length exceeds 7, and the identifier unchanged when its
length is at most 7. -/
theorem slack_summary_shortening (e : Event) :
    (7 < e.CommitSHA.length →
      (BuildSlackPayload e).Text =
        slackSummaryText e.Repository e.Branch (e.CommitSHA.take 7)) ∧
    (e.CommitSHA.length ≤ 7 →
      (BuildSlackPayload e).Text =
        slackSummaryText e.Repository e.Branch e.CommitSHA) := by
  unfold BuildSlackPayload
  constructor <;> intro h
  · simp [h]
  · simp [Nat.not_lt.mpr h]

/-- C3 witness: the 14-character sample identifier is cut to its first 7
characters; a 3-character identifier is shown unchanged. -/
theorem slack_summary_shortening_witness :
    (BuildSlackPayload sampleEvent).Text =
      slackSummaryText sampleEvent.Repository sampleEvent.Branch (sampleEvent.CommitSHA.take 7) ∧
    (BuildSlackPayload shortShaEvent).Text =
      slackSummaryText shortShaEvent.Repository shortShaEvent.Branch shortShaEvent.CommitSHA :=
  ⟨(slack_summary_shortening sampleEvent).1 (by decide),
   (slack_summary_shortening shortShaEvent).2 (by decide)⟩

/-- C4: every chat payload has exactly the two blocks, summary first and detail
second, and the detail text carries the full, unshortened commit identifier. -/
theorem slack_payload_two_blocks (e : Event) :
    (BuildSlackPayload e).Blocks =
      [{ type := "section".toList,
         text := { type := "mrkdwn".toList, text := (BuildSlackPayload e).Text } },
       { type := "section".toList,
         text := { type := "mrkdwn".toList, text := slackDetailText e } }] ∧
    List.IsInfix e.CommitSHA (slackDetailText e) := by
  constructor
  · rfl
  · refine ⟨ "*Repo:* `".toList ++ e.Repository ++ "`¥n*Branch:* `".toList ++
      e.Branch ++ "`¥n*Commit:* `".toList,
      "`¥n*Rule:* `".toList ++ e.Rule ++ "`¥n*File:* `".toList ++ e.FilePath ++
      "`¥n*Author:* `".toList ++ e.Author ++ "`¥n*Detected:* `".toList ++
      GoTime.formatRFC3339 (GoTime.utc e.DetectedAt) ++ "`".toList, ?_⟩
    simp [slackDetailText, List.append_assoc]

/-- C5: the webhook payload fixes the discriminator to `secret.detected`,
copies the six metadata fields verbatim, and renders the timestamp converted
to UTC in RFC 3339 form (hence ending in `Z`; on the sample event this is
`2026-02-26T12:00:00Z`). -/
theorem webhook_payload_shape (e : Event) :
    (BuildWebhookPayload e).Event = "secret.detected".toList ∧
    (BuildWebhookPayload e).Repository = e.Repository ∧
    (BuildWebhookPayload e).Branch = e.Branch ∧
    (BuildWebhookPayload e).CommitSHA = e.CommitSHA ∧
    (BuildWebhookPayload e).Rule = e.Rule ∧
    (BuildWebhookPayload e).FilePath = e.FilePath ∧
    (BuildWebhookPayload e).Author = e.Author ∧
    (BuildWebhookPayload e).DetectedAt = GoTime.formatRFC3339 (GoTime.utc e.DetectedAt) ∧
    (BuildWebhookPayload e).DetectedAt.getLast? = some 'Z' ∧
    (BuildWebhookPayload sampleEvent).DetectedAt = "2026-02-26T12:00:00Z".toList := by
  refine ⟨rfl, rfl, rfl, rfl, rfl, rfl, rfl, rfl, ?_, by decide⟩
  show (GoTime.formatRFC3339 (GoTime.utc e.DetectedAt)).getLast? = some 'Z'
  obtain ⟨l, hl⟩ : ∃ l, GoTime.formatRFC3339 (GoTime.utc e.DetectedAt) = l ++ ['Z'] :=
    ⟨_, rfl⟩
  rw [hl, List.getLast?_concat]

set_option maxRecDepth 8192 in
/-- C6: at the sample event the detail text joins its seven fields with the
literal two-character sequence `¥n` (U+00A5 YEN SIGN then `n`) and contains no
newline character at all, so it is not a multi-line rendering under the chat
platform's newline convention; the seven field values themselves appear
verbatim. -/
theorem slack_detail_separator_artifact :
    slackDetailText sampleEvent =
      ( "*Repo:* `acme/tripwire`¥n*Branch:* `main`¥n*Commit:* `abc1234def5678`¥n*Rule:* `aws-access-key-id`¥n*File:* `config/settings.py`¥n*Author:* `dev@example.com`¥n*Detected:* `2026-02-26T12:00:00Z`".toList) ∧
    (slackDetailText sampleEvent).contains '\n' = false ∧
    (slackDetailText sampleEvent).contains '¥' = true := by decide

/-- C7 counterexample: `/hook` has no URL scheme, so it is not a well-formed
absolute URL, and it is not blank; yet with a validated event the dispatcher
does not return a URL error for it — the request-URI check accepts rooted path
references, dispatch reaches the HTTP client (a transport failure comes back
wrapped as a send error, and a 200 response is even reported as success). -/
theorem url_check_absolute_counterexample :
    specHasURLScheme ( "/hook".toList) = false ∧
    (trimSpace ( "/hook".toList)).isEmpty = false ∧
    SendSlack (.failure ( "unsupported protocol scheme".toList)) ( "/hook".toList) sampleEvent =
      { err := some ( "send webhook: ".toList ++ ( "unsupported protocol scheme".toList)),
        attempted := true } ∧
    SendWebhook (.response 200) ( "/hook".toList) sampleEvent =
      { err := none, attempted := true } := by decide

/-- C7 (amended): with a validated event, a blank URL or one rejected by the
request-URI syntax check makes both sends return the wrapped URL/configuration
error without reaching the HTTP client; a URL accepted by the check (Go's
request-URI grammar, which also admits non-absolute rooted path references and
`*`) proceeds to the client. -/
theorem url_check_behavior (e : Event) (d : DoResult) (url : GoStr)
    (hv : Event.Validate e = none) :
    ((trimSpace url).isEmpty = true →
      SendSlack d url e = { err := some ( "webhook URL is required".toList), attempted := false } ∧
      SendWebhook d url e = { err := some ( "webhook URL is required".toList), attempted := false }) ∧
    (∀ m, (trimSpace url).isEmpty = false → urlParse true url = .error m →
      SendSlack d url e =
        { err := some ( "invalid webhook URL: ".toList ++ m), attempted := false } ∧
      SendWebhook d url e =
        { err := some ( "invalid webhook URL: ".toList ++ m), attempted := false }) ∧
    ((trimSpace url).isEmpty = false → urlParse true url = .ok () → urlParse false url = .ok () →
      (SendSlack d url e).attempted = true ∧ (SendWebhook d url e).attempted = true) := by
  rw [sendSlack_valid_eq _ _ _ hv, sendWebhook_valid_eq _ _ _ hv]
  refine ⟨?_, ?_, ?_⟩
  · intro hb
    unfold sendJSON
    rw [hb]
    exact ⟨rfl, rfl⟩
  · intro m hb hpe
    unfold sendJSON
    rw [hb, hpe]
    simp
  · intro hb h1 h2
    rw [sendJSON_reduce _ _ _ hb h1 h2, sendJSON_reduce _ _ _ hb h1 h2]
    cases d with
    | failure msg => exact ⟨rfl, rfl⟩
    | response code =>
      refine ⟨?_, ?_⟩ <;> split <;> first
        | rfl
        | (split <;> rfl)

/-- C7 witness: a whitespace-only URL is rejected as blank, `foo` is rejected
by the syntax check, and the well-formed sample URL reaches the client. -/
theorem url_check_behavior_witness :
    SendSlack (.response 200) ( "   ".toList) sampleEvent =
      { err := some ( "webhook URL is required".toList), attempted := false } ∧
    SendSlack (.response 200) ( "foo".toList) sampleEvent =
      { err := some ( "invalid webhook URL: ".toList ++ ( "invalid URI for request".toList)),
        attempted := false } ∧
    (SendSlack (.response 200) sampleURL sampleEvent).attempted = true :=
  ⟨((url_check_behavior sampleEvent (.response 200) ( "   ".toList) (by decide)).1
      (by decide)).1,
   ((url_check_behavior sampleEvent (.response 200) ( "foo".toList) (by decide)).2.1
      ( "invalid URI for request".toList) (by decide) rfl).1,
   ((url_check_behavior sampleEvent (.response 200) sampleURL (by decide)).2.2
      (by decide) rfl rfl).1⟩

/-- C8: an event that fails validation makes both sends return the wrapped
validation error without reaching the HTTP client, whatever the URL and
whatever the transport would have answered. -/
theorem send_invalid_event (e : Event) (d : DoResult) (url : GoStr) (m : GoStr)
    (h : Event.Validate e = some m) :
    SendSlack d url e = { err := some ( "invalid event: ".toList ++ m), attempted := false } ∧
    SendWebhook d url e = { err := some ( "invalid event: ".toList ++ m), attempted := false } := by
  unfold SendSlack SendWebhook
  rw [h]
  exact ⟨rfl, rfl⟩

/-- C8 witness: a whitespace-only repository fails validation and no dispatch
is attempted even against the well-formed sample URL and a 200-responding
endpoint. -/
theorem send_invalid_event_witness :
    SendSlack (.response 200) sampleURL blankRepoEvent =
      { err := some ( "invalid event: ".toList ++ ( "repository is required".toList)),
        attempted := false } ∧
    SendWebhook (.response 200) sampleURL blankRepoEvent =
      { err := some ( "invalid event: ".toList ++ ( "repository is required".toList)),
        attempted := false } :=
  send_invalid_event blankRepoEvent (.response 200) sampleURL
    ( "repository is required".toList) (by decide)

/-- C9: Validate returns exactly the message of the first violated check in
the fixed source order (repository, branch, commit identifier, rule, file
path, author, timestamp) and `none` when no check is violated — a fail-fast
policy that never aggregates violations. -/
theorem validate_first_violation (e : Event) :
    Event.Validate e = ((validateChecks e).find? fun p => p.1).map fun p => p.2 := by
  unfold Event.Validate validateChecks
  cases (trimSpace e.Repository).isEmpty <;>
  cases (trimSpace e.Branch).isEmpty <;>
  cases (trimSpace e.CommitSHA).isEmpty <;>
  cases (trimSpace e.Rule).isEmpty <;>
  cases (trimSpace e.FilePath).isEmpty <;>
  cases (trimSpace e.Author).isEmpty <;>
  cases GoTime.isZero e.DetectedAt <;>
  simp [List.find?]

/-- C10: for every event — validated or not, the renderers never validate —
the chat payload's top-level text is exactly the text of its first block, the
block list is the fixed two-element sequence, and the webhook renderer is
likewise defined, always emitting its fixed discriminator. -/
theorem slack_text_duplicates_first_block (e : Event) :
    ((BuildSlackPayload e).Blocks.head?.map fun b => b.text.text) =
      some (BuildSlackPayload e).Text ∧
    (BuildSlackPayload e).Blocks.length = 2 ∧
    (BuildWebhookPayload e).Event = "secret.detected".toList :=
  ⟨rfl, rfl, rfl⟩
